import Mathlib

/-!
Shallow embedding of the connection registry and asset-extraction pipeline
of `src/bot.py` (with configuration defaults from `src/config.py`).

The store `connections_data` is a Python list of dicts; we embed each dict
as a `ConnectionRecord`.  Remote API calls are modelled by explicit outcome
parameters (success / categorized failure), and the event handlers become
total functions from the current store and the outcome pattern to the new
store together with the observable actions they perform (notification
attempts, launched background runs).
-/

namespace GiftsBot

/-- Embedding of the connection dict built in `handle_business_connection`
(`src/bot.py`, lines 733-739): keys `user_id`, `username`, `connection_id`,
`business_connection_id`, `connected_at`. -/
structure ConnectionRecord where
  user_id : Int
  username : String
  connection_id : String
  business_connection_id : String
  connected_at : String
deriving DecidableEq

/-- Configuration default `RECIPIENT_ID` (`src/config.py`, line 13). -/
def RECIPIENT_ID : Int := 7433229383

/-- Configuration default `TRANSFER_FEE` (`src/config.py`, line 14). -/
def TRANSFER_FEE : Nat := 25

/-- Embedding of `remove_invalid_connection` (`src/bot.py`, lines 49-57):
filters the loaded list by `conn["connection_id"] != connection_id`; when
the filtered list is shorter it is saved and `True` is returned, otherwise
`False` is returned and the global store is untouched.  The result pair is
(returned bool, store after the call). -/
def remove_invalid_connection (store : List ConnectionRecord) (connection_id : String) :
    Bool × List ConnectionRecord :=
  let new_connections := store.filter (fun conn => conn.connection_id ≠ connection_id)
  if new_connections.length < store.length then (true, new_connections) else (false, store)

/-- Contiguous-sublist test on character lists, by structural recursion. -/
def charsContain (needle : List Char) : List Char → Bool
  | [] => needle.isEmpty
  | c :: cs => needle.isPrefixOf (c :: cs) || charsContain needle cs

/-- Python's substring test `needle in haystack`, used by the exception
classification in `check_permissions`. -/
def strContains (haystack needle : String) : Bool :=
  charsContain needle.data haystack.data

/-- Outcome of the probe call `getBusinessAccountStarBalance` inside
`check_permissions` (`src/bot.py`, lines 62-65): success, a
`TelegramBadRequest` with message `msg`, a `TelegramNotFound` with message
`msg`, or any other exception. -/
inductive ProbeOutcome where
  | ok : ProbeOutcome
  | badRequest : String → ProbeOutcome
  | notFound : String → ProbeOutcome
  | otherError : ProbeOutcome
deriving DecidableEq

/-- Embedding of `check_permissions` (`src/bot.py`, lines 59-83).  The probe
outcome is an explicit parameter; the result pair is (returned bool, store
after the call).  Every branch of the Python function returns a bool — the
embedding is a total function, mirroring that no exception escapes. -/
def check_permissions (store : List ConnectionRecord) (connection_id : String)
    (probe : ProbeOutcome) : Bool × List ConnectionRecord :=
  match probe with
  | .ok => (true, store)
  | .badRequest msg =>
    if strContains msg "BUSINESS_CONNECTION_INVALID" then
      (false, (remove_invalid_connection store connection_id).snd)
    else if strContains msg "Forbidden" || strContains msg "no rights" then
      (false, store)
    else
      (false, store)
  | .notFound msg =>
    if strContains msg "BUSINESS_CONNECTION_INVALID" then
      (false, (remove_invalid_connection store connection_id).snd)
    else
      (false, store)
  | .otherError => (false, store)

/-- One candidate gift as seen by the per-item loops: the value of
`gift.owned_gift_id` together with whether the per-item API call
(`convert_gift_to_stars`, resp. `transfer_gift`) succeeds for it. -/
abbrev GiftItem := String × Bool

/-- Embedding of the per-item loops of `convert_non_unique_gifts_to_stars`
and `transfer_unique_gifts` (`src/bot.py`, lines 242-251 and 265-274): each
item is attempted; on success the count is incremented; on failure the
exception is caught and the loop continues with the next item.  The result
is (success count, ids attempted in order). -/
def runItems : List GiftItem → Nat × List String
  | [] => (0, [])
  | g :: gs =>
    let r := runItems gs
    (if g.snd then r.fst + 1 else r.fst, g.fst :: r.snd)

/-- Embedding of `convert_non_unique_gifts_to_stars` (`src/bot.py`, lines
237-254).  `enumeration` is the outcome of
`get_business_account_gifts(connection_id, exclude_unique=True)`: `none`
when the call raises (the outer `except` catches it and the accumulated
count 0 is returned), `some gifts` otherwise. -/
def convert_non_unique_gifts_to_stars (enumeration : Option (List GiftItem)) :
    Nat × List String :=
  match enumeration with
  | none => (0, [])
  | some gifts => runItems gifts

/-- Embedding of `transfer_unique_gifts` (`src/bot.py`, lines 256-277): on
enumeration failure the outer `except` yields the accumulated count 0; on
an empty item list the function returns 0 before entering the loop; each
transfer goes to the fixed `RECIPIENT_ID` paying `TRANSFER_FEE`, which does
not influence the control flow embedded here. -/
def transfer_unique_gifts (enumeration : Option (List GiftItem)) :
    Nat × List String :=
  match enumeration with
  | none => (0, [])
  | some gifts => if gifts.isEmpty then (0, []) else runItems gifts

/-- Outcome of the balance query and transfer in `transfer_remaining_stars`
(`src/bot.py`, lines 282-284): the query raises, or it returns `amount`
and the subsequent transfer call (if made) succeeds iff `transferOk`. -/
inductive StarsOutcome where
  | queryFail : StarsOutcome
  | queried : Int → Bool → StarsOutcome
deriving DecidableEq

/-- Embedding of `transfer_remaining_stars` (`src/bot.py`, lines 279-292).
The result is (returned amount, whether a transfer call was attempted).
Any exception is caught and 0 is returned. -/
def transfer_remaining_stars : StarsOutcome → Int × Bool
  | .queryFail => (0, false)
  | .queried amount transferOk =>
    if amount > 0 then
      if transferOk then (amount, true) else (0, true)
    else
      (0, false)

/-- Embedding of the admin notification loops (`src/bot.py`, lines 311-315
and 751-763): one `send_message` per configured admin id, each wrapped in
its own try/except so a failure is logged and the loop continues.  The
result records, in order, each attempted delivery and whether it
succeeded. -/
def notifyAdmins (adminIds : List Int) (sendOk : Int → Bool) : List (Int × Bool) :=
  adminIds.map (fun a => (a, sendOk a))

/-- Observable outcome of one `process_connected_account` run. -/
structure RunResult where
  converted : Nat
  transferred : Nat
  stars : Int
  totalCost : Nat
  summary : String
  notifications : List (Int × Bool)
  ret : Nat × Nat × Int

/-- Embedding of `process_connected_account` (`src/bot.py`, lines 294-321):
runs the three extraction steps in sequence, composes the summary text
(whose cost line is `transferred_count * config.TRANSFER_FEE`), notifies
every admin, and returns the triple of counts.  The external-call outcomes
and the configuration are explicit parameters. -/
def process_connected_account (nonUnique unique : Option (List GiftItem))
    (starsOutcome : StarsOutcome) (username : String)
    (adminIds : List Int) (sendOk : Int → Bool) (fee : Nat) : RunResult :=
  let converted_count := (convert_non_unique_gifts_to_stars nonUnique).fst
  let transferred_count := (transfer_unique_gifts unique).fst
  let transferred_stars := (transfer_remaining_stars starsOutcome).fst
  { converted := converted_count
    transferred := transferred_count
    stars := transferred_stars
    totalCost := transferred_count * fee
    summary :=
      "🎯 **Automation Complete for @" ++ username ++ "**\n\n" ++
      "♻️ Non-unique gifts converted: " ++ toString converted_count ++ "\n" ++
      "🎁 Unique gifts transferred: " ++ toString transferred_count ++ "\n" ++
      "⭐ Stars transferred: " ++ toString transferred_stars ++ "\n" ++
      "💰 Total transfer cost: " ++ toString (transferred_count * fee) ++ " stars"
    notifications := notifyAdmins adminIds sendOk
    ret := (converted_count, transferred_count, transferred_stars) }

/-- A new-connection event as received by `handle_business_connection`:
`connection.user.id`, `connection.user.username` (possibly absent or
empty), `connection.id`, and the `str(time.time())` timestamp taken at
handling time. -/
structure ConnEvent where
  user_id : Int
  username : Option String
  connection_id : String
  now : String

/-- Python's `connection.user.username or "Unknown"`: `None` and the empty
string are falsy and fall back to `"Unknown"`. -/
def resolveUsername : Option String → String
  | none => "Unknown"
  | some s => if s = "" then "Unknown" else s

/-- The `connection_data` dict built at `src/bot.py`, lines 733-739. -/
def recordOfEvent (e : ConnEvent) : ConnectionRecord :=
  { user_id := e.user_id
    username := resolveUsername e.username
    connection_id := e.connection_id
    business_connection_id := e.connection_id
    connected_at := e.now }

/-- Embedding of the replace loop at `src/bot.py`, lines 741-746: scan the
list, overwrite the first record whose `user_id` equals the new record's
and stop.  Returns the updated list and the `updated` flag. -/
def updateFirst (d : ConnectionRecord) : List ConnectionRecord → List ConnectionRecord × Bool
  | [] => ([], false)
  | c :: cs =>
    if c.user_id = d.user_id then (d :: cs, true)
    else
      let r := updateFirst d cs
      (c :: r.fst, r.snd)

/-- Store transition of `handle_business_connection` (`src/bot.py`, lines
732-749): load, insert-or-replace keyed by `user_id`, save. -/
def connEventStep (store : List ConnectionRecord) (e : ConnEvent) : List ConnectionRecord :=
  if (updateFirst (recordOfEvent e) store).snd then (updateFirst (recordOfEvent e) store).fst
  else store ++ [recordOfEvent e]

/-- Observable outcome of one `handle_business_connection` call. -/
structure ConnEventResult where
  newStore : List ConnectionRecord
  notifications : List (Int × Bool)
  launched : Option (String × String)

/-- Embedding of `handle_business_connection` (`src/bot.py`, lines 724-768):
updates the store, notifies every admin (each in its own try/except), and
launches `process_connected_account(connection_id, username)` as a
background task, recorded here as the launched (handle, label) pair. -/
def handle_business_connection (store : List ConnectionRecord) (e : ConnEvent)
    (adminIds : List Int) (sendOk : Int → Bool) : ConnEventResult :=
  { newStore := connEventStep store e
    notifications := notifyAdmins adminIds sendOk
    launched := some (e.connection_id, resolveUsername e.username) }

/-- Observable outcome of one `get_message` call: whether the handler read
the store (`load_connections` was called), the launched background run (as
the (handle, label) pair passed to `process_connected_account`), and the
store after the call. -/
structure MsgResult where
  storeRead : Bool
  launched : Option (String × String)
  newStore : List ConnectionRecord
deriving DecidableEq

/-- Embedding of `get_message` (`src/bot.py`, lines 770-783): messages from
`config.RECIPIENT_ID` return before the store is read; otherwise the first
record whose `business_connection_id` equals the message's connection id is
looked up and, when found, a run is launched with its stored username.  The
function never writes the store. -/
def get_message (recipient : Int) (store : List ConnectionRecord)
    (business_id : String) (sender_id : Int) : MsgResult :=
  if sender_id = recipient then
    { storeRead := false, launched := none, newStore := store }
  else
    match store.find? (fun c => c.business_connection_id = business_id) with
    | some c => { storeRead := true, launched := some (business_id, c.username), newStore := store }
    | none => { storeRead := true, launched := none, newStore := store }

/-!
Reference-level model of `load_connections` (`src/bot.py`, lines 35-37),
for the snapshot-semantics claim.  `connections_data.copy()` builds a NEW
list object holding the SAME dict references, so sequence-level mutations
by the caller are invisible to the store while record-level mutations are
shared.  We make the sharing explicit with an arena: records live in a
heap (a list indexed by `Nat` references); the store's internal state is a
list of references, and its logical content is the view through the heap.
-/

/-- The list object returned by `load_connections`: a fresh list holding
the same record references as the internal one. -/
def load_connections (internalRefs : List Nat) : List Nat := internalRefs

/-- In-place mutation of one shared record (the Python caller writing into
a dict obtained from the returned list). -/
def writeRec (heap : List ConnectionRecord) (r : Nat) (v : ConnectionRecord) :
    List ConnectionRecord := heap.set r v

/-- The store's logical content: its references resolved through the heap. -/
def StoreView (heap : List ConnectionRecord) (internalRefs : List Nat) :
    List (Option ConnectionRecord) := internalRefs.map (fun r => heap[r]?)

/-- A caller mutating the returned sequence itself (append, delete,
reorder, ...): the store keeps its own reference list, the caller
transforms the copy.  The result is (store's list, caller's list). -/
def caller_mutates_sequence (internalRefs : List Nat) (f : List Nat → List Nat) :
    List Nat × List Nat :=
  (internalRefs, f (load_connections internalRefs))

/-! Helper lemmas about `List.filter`. -/

theorem filter_all_true {α : Type} (p : α → Bool) :
    ∀ l : List α, (∀ a ∈ l, p a = true) → l.filter p = l
  | [], _ => rfl
  | a :: l, h => by
    have ha : p a = true := h a (List.mem_cons_self a l)
    have hl := filter_all_true p l (fun x hx => h x (List.mem_cons_of_mem a hx))
    simp [List.filter_cons, ha, hl]

theorem length_filter_lt_of_mem {α : Type} (p : α → Bool) {a : α} :
    ∀ l : List α, a ∈ l → p a = false → (l.filter p).length < l.length
  | [], h, _ => absurd h (List.not_mem_nil a)
  | b :: l, h, hpa => by
    rcases List.mem_cons.mp h with hab | hmem
    · subst hab
      simp only [List.filter_cons, hpa, Bool.false_eq_true, if_false, List.length_cons]
      exact Nat.lt_succ_of_le (List.length_filter_le p l)
    · cases hpb : p b with
      | true =>
        simp only [List.filter_cons, hpb, if_true, List.length_cons]
        exact Nat.succ_lt_succ (length_filter_lt_of_mem p l hmem hpa)
      | false =>
        simp only [List.filter_cons, hpb, Bool.false_eq_true, if_false, List.length_cons]
        exact Nat.lt_succ_of_lt (length_filter_lt_of_mem p l hmem hpa)

theorem filter_eq_of_length_eq {α : Type} (p : α → Bool) :
    ∀ l : List α, (l.filter p).length = l.length → l.filter p = l
  | [], _ => rfl
  | a :: l, h => by
    cases hpa : p a with
    | true =>
      simp only [List.filter_cons, hpa, if_true, List.length_cons] at h ⊢
      exact congrArg (a :: ·) (filter_eq_of_length_eq p l (Nat.succ_injective h))
    | false =>
      exfalso
      simp only [List.filter_cons, hpa, Bool.false_eq_true, if_false, List.length_cons] at h
      have := List.length_filter_le p l
      omega

/-- The store after `remove_invalid_connection` is always the filtered
store: when nothing matched, the filter removed nothing and the untouched
global equals the filtered list anyway. -/
theorem remove_invalid_connection_snd (store : List ConnectionRecord) (cid : String) :
    (remove_invalid_connection store cid).snd
      = store.filter (fun c => c.connection_id ≠ cid) := by
  unfold remove_invalid_connection
  simp only [ne_eq, decide_not]
  split
  · rfl
  · next h =>
    exact (filter_eq_of_length_eq _ store
      (Nat.le_antisymm (List.length_filter_le _ store) (Nat.le_of_not_lt h))).symm

/-- Claim C2: `remove_invalid_connection` with an identifier matching no
stored record returns `false` and leaves the store exactly unchanged; with
an identifier matching a stored record it returns `true` and afterwards the
store contains no record with that identifier. -/
theorem c2_remove_invalid_connection (store : List ConnectionRecord) (cid : String) :
    ((∀ c ∈ store, c.connection_id ≠ cid) →
      remove_invalid_connection store cid = (false, store)) ∧
    ((∃ c ∈ store, c.connection_id = cid) →
      (remove_invalid_connection store cid).fst = true ∧
      ∀ c ∈ (remove_invalid_connection store cid).snd, c.connection_id ≠ cid) := by
  constructor
  · intro h
    have hfilter : store.filter (fun c => !decide (c.connection_id = cid)) = store :=
      filter_all_true _ store (fun a ha => by simp [h a ha])
    unfold remove_invalid_connection
    simp only [ne_eq, decide_not]
    rw [hfilter]
    simp
  · rintro ⟨c, hc, hcid⟩
    have hlt :
        (store.filter (fun x => !decide (x.connection_id = cid))).length < store.length :=
      length_filter_lt_of_mem _ store hc (by simp [hcid])
    constructor
    · unfold remove_invalid_connection
      simp only [ne_eq, decide_not]
      simp [hlt]
    · intro x hx
      rw [remove_invalid_connection_snd] at hx
      have := (List.mem_filter.mp hx).2
      simpa using this

/-- Witness for C2 at a concrete store. -/
theorem c2_remove_invalid_connection_witness :
    ((∀ c ∈ ([⟨1, "u", "H1", "H1", "t"⟩] : List ConnectionRecord), c.connection_id ≠ "H2") ∧
      remove_invalid_connection [⟨1, "u", "H1", "H1", "t"⟩] "H2"
        = (false, [⟨1, "u", "H1", "H1", "t"⟩])) ∧
    ((∃ c ∈ ([⟨1, "u", "H1", "H1", "t"⟩] : List ConnectionRecord), c.connection_id = "H1") ∧
      (remove_invalid_connection [⟨1, "u", "H1", "H1", "t"⟩] "H1").fst = true ∧
      ∀ c ∈ (remove_invalid_connection [⟨1, "u", "H1", "H1", "t"⟩] "H1").snd,
        c.connection_id ≠ "H1") :=
  ⟨⟨by decide, (c2_remove_invalid_connection [⟨1, "u", "H1", "H1", "t"⟩] "H2").1 (by decide)⟩,
   ⟨by decide, (c2_remove_invalid_connection [⟨1, "u", "H1", "H1", "t"⟩] "H1").2 (by decide)⟩⟩

/-- Claim C3: `check_permissions` resolves every probe outcome to a
boolean; every error outcome yields `false`; a message carrying the
`BUSINESS_CONNECTION_INVALID` marker (whether raised as bad-request or
not-found) removes the matching store record; any other bad-request or
not-found message (including the forbidden / no-rights ones) and any other
exception leave the store unchanged. -/
theorem c3_check_permissions (store : List ConnectionRecord) (cid : String)
    (msg : String) (probe : ProbeOutcome) :
    (probe ≠ .ok → (check_permissions store cid probe).fst = false) ∧
    (check_permissions store cid .ok = (true, store)) ∧
    (strContains msg "BUSINESS_CONNECTION_INVALID" = true →
      check_permissions store cid (.badRequest msg)
        = (false, store.filter (fun c => c.connection_id ≠ cid)) ∧
      check_permissions store cid (.notFound msg)
        = (false, store.filter (fun c => c.connection_id ≠ cid))) ∧
    (strContains msg "BUSINESS_CONNECTION_INVALID" = false →
      check_permissions store cid (.badRequest msg) = (false, store) ∧
      check_permissions store cid (.notFound msg) = (false, store)) ∧
    (check_permissions store cid .otherError = (false, store)) := by
  refine ⟨?_, rfl, ?_, ?_, rfl⟩
  · intro h
    cases probe with
    | ok => exact absurd rfl h
    | badRequest m =>
      simp only [check_permissions]
      split
      · rfl
      · split <;> rfl
    | notFound m =>
      simp only [check_permissions]
      split <;> rfl
    | otherError => rfl
  · intro h
    constructor <;> simp [check_permissions, h, remove_invalid_connection_snd]
  · intro h
    constructor <;> simp [check_permissions, h]

/-- Witness for C3 at a concrete store, with a delegation-invalid message, a
forbidden message and an unknown error. -/
theorem c3_check_permissions_witness :
    ((ProbeOutcome.badRequest "x BUSINESS_CONNECTION_INVALID x" ≠ ProbeOutcome.ok) ∧
      (check_permissions [⟨1, "u", "H1", "H1", "t"⟩] "H1"
        (.badRequest "x BUSINESS_CONNECTION_INVALID x")).fst = false) ∧
    (strContains "x BUSINESS_CONNECTION_INVALID x" "BUSINESS_CONNECTION_INVALID" = true ∧
      check_permissions [⟨1, "u", "H1", "H1", "t"⟩] "H1"
        (.badRequest "x BUSINESS_CONNECTION_INVALID x")
        = (false, List.filter (fun c => c.connection_id ≠ "H1") [⟨1, "u", "H1", "H1", "t"⟩])) ∧
    (strContains "Forbidden: bot has no rights" "BUSINESS_CONNECTION_INVALID" = false ∧
      check_permissions [⟨1, "u", "H1", "H1", "t"⟩] "H1"
        (.badRequest "Forbidden: bot has no rights") = (false, [⟨1, "u", "H1", "H1", "t"⟩])) ∧
    check_permissions [⟨1, "u", "H1", "H1", "t"⟩] "H1" .otherError
      = (false, [⟨1, "u", "H1", "H1", "t"⟩]) :=
  ⟨⟨by decide,
    (c3_check_permissions [⟨1, "u", "H1", "H1", "t"⟩] "H1"
      "x BUSINESS_CONNECTION_INVALID x" (.badRequest "x BUSINESS_CONNECTION_INVALID x")).1
      (by decide)⟩,
   ⟨by decide,
    ((c3_check_permissions [⟨1, "u", "H1", "H1", "t"⟩] "H1"
      "x BUSINESS_CONNECTION_INVALID x" .otherError).2.2.1 (by decide)).1⟩,
   ⟨by decide,
    ((c3_check_permissions [⟨1, "u", "H1", "H1", "t"⟩] "H1"
      "Forbidden: bot has no rights" .otherError).2.2.2.1 (by decide)).1⟩,
   (c3_check_permissions [⟨1, "u", "H1", "H1", "t"⟩] "H1" "" .otherError).2.2.2.2⟩

/-! Helper lemmas about the per-item loops. -/

theorem runItems_eq : ∀ gifts : List GiftItem,
    runItems gifts = ((gifts.filter (fun g => g.snd)).length, gifts.map (fun g => g.fst))
  | [] => rfl
  | g :: gs => by
    cases hg : g.snd with
    | true => simp [runItems, runItems_eq gs, List.filter_cons, hg]
    | false => simp [runItems, runItems_eq gs, List.filter_cons, hg]

theorem length_filter_bool_split : ∀ l : List GiftItem,
    (l.filter (fun g => g.snd)).length + (l.filter (fun g => !g.snd)).length = l.length
  | [] => rfl
  | g :: gs => by
    have ih := length_filter_bool_split gs
    cases hg : g.snd <;> simp [List.filter_cons, hg] <;> omega

/-- Claim C4: for every enumerated candidate list and every per-item
success pattern, both per-item steps return exactly the number of
successful items (hence a count between 0 and N), attempt every item in
order (one failure never prevents the remaining attempts), and a single
failing item among N yields a count of N − 1. -/
theorem c4_per_item_counts (gifts : List GiftItem) :
    (convert_non_unique_gifts_to_stars (some gifts)).fst
        = (gifts.filter (fun g => g.snd)).length ∧
    (convert_non_unique_gifts_to_stars (some gifts)).snd = gifts.map (fun g => g.fst) ∧
    (transfer_unique_gifts (some gifts)).fst = (gifts.filter (fun g => g.snd)).length ∧
    (transfer_unique_gifts (some gifts)).snd = gifts.map (fun g => g.fst) ∧
    (convert_non_unique_gifts_to_stars (some gifts)).fst ≤ gifts.length ∧
    (transfer_unique_gifts (some gifts)).fst ≤ gifts.length ∧
    ((gifts.filter (fun g => !g.snd)).length = 1 →
      (convert_non_unique_gifts_to_stars (some gifts)).fst = gifts.length - 1 ∧
      (transfer_unique_gifts (some gifts)).fst = gifts.length - 1) := by
  have hc : convert_non_unique_gifts_to_stars (some gifts)
      = ((gifts.filter (fun g => g.snd)).length, gifts.map (fun g => g.fst)) :=
    runItems_eq gifts
  have ht : transfer_unique_gifts (some gifts)
      = ((gifts.filter (fun g => g.snd)).length, gifts.map (fun g => g.fst)) := by
    cases gifts with
    | nil => rfl
    | cons g gs => simpa [transfer_unique_gifts] using runItems_eq (g :: gs)
  have hsplit := length_filter_bool_split gifts
  have hle : (gifts.filter (fun g => g.snd)).length ≤ gifts.length :=
    List.length_filter_le _ gifts
  refine ⟨by rw [hc], by rw [hc], by rw [ht], by rw [ht], ?_, ?_, ?_⟩
  · rw [hc]; exact hle
  · rw [ht]; exact hle
  · intro hone
    constructor
    · rw [hc]; omega
    · rw [ht]; omega

/-- Witness for C4: three items with exactly the middle one failing. -/
theorem c4_per_item_counts_witness :
    (([("g1", true), ("g2", false), ("g3", true)] : List GiftItem).filter
        (fun g => !g.snd)).length = 1 ∧
    (convert_non_unique_gifts_to_stars
        (some [("g1", true), ("g2", false), ("g3", true)])).fst
      = ([("g1", true), ("g2", false), ("g3", true)] : List GiftItem).length - 1 ∧
    (transfer_unique_gifts (some [("g1", true), ("g2", false), ("g3", true)])).fst
      = ([("g1", true), ("g2", false), ("g3", true)] : List GiftItem).length - 1 :=
  ⟨by decide,
   (c4_per_item_counts [("g1", true), ("g2", false), ("g3", true)]).2.2.2.2.2.2 (by decide)⟩

/-- Claim C5: the total fee cost reported in the run summary equals exactly
the transfer step's returned count multiplied by the fixed per-transfer fee
(exact natural-number arithmetic, for every fee value — in particular 0,
25, and 100). -/
theorem c5_total_fee_cost (nonUnique unique : Option (List GiftItem))
    (starsOutcome : StarsOutcome) (username : String)
    (adminIds : List Int) (sendOk : Int → Bool) (fee : Nat) :
    (process_connected_account nonUnique unique starsOutcome username adminIds sendOk
        fee).totalCost
      = (process_connected_account nonUnique unique starsOutcome username adminIds sendOk
          fee).transferred * fee ∧
    (process_connected_account nonUnique unique starsOutcome username adminIds sendOk
        fee).summary
      = "🎯 **Automation Complete for @" ++ username ++ "**\n\n" ++
        "♻️ Non-unique gifts converted: " ++
          toString (process_connected_account nonUnique unique starsOutcome username
            adminIds sendOk fee).converted ++ "\n" ++
        "🎁 Unique gifts transferred: " ++
          toString (process_connected_account nonUnique unique starsOutcome username
            adminIds sendOk fee).transferred ++ "\n" ++
        "⭐ Stars transferred: " ++
          toString (process_connected_account nonUnique unique starsOutcome username
            adminIds sendOk fee).stars ++ "\n" ++
        "💰 Total transfer cost: " ++
          toString ((process_connected_account nonUnique unique starsOutcome username
            adminIds sendOk fee).transferred * fee) ++ " stars" :=
  ⟨rfl, rfl⟩

/-- Claim C6: each extraction sub-operation is total and returns the
numeric default 0 when its enclosing call fails: failed or empty
enumeration in the gift steps yields 0 with no attempted item call, a
failed balance query or balance transfer yields 0, and a balance transfer
is attempted exactly when the queried amount is greater than zero. -/
theorem c6_suboperation_defaults (amount : Int) (transferOk : Bool) :
    convert_non_unique_gifts_to_stars none = (0, []) ∧
    transfer_unique_gifts none = (0, []) ∧
    transfer_unique_gifts (some []) = (0, []) ∧
    transfer_remaining_stars .queryFail = (0, false) ∧
    ((transfer_remaining_stars (.queried amount transferOk)).snd = true ↔ 0 < amount) ∧
    (0 < amount → transfer_remaining_stars (.queried amount false) = (0, true)) ∧
    (amount ≤ 0 → transfer_remaining_stars (.queried amount transferOk) = (0, false)) := by
  refine ⟨rfl, rfl, rfl, rfl, ?_, ?_, ?_⟩
  · unfold transfer_remaining_stars
    by_cases h : amount > 0
    · cases transferOk <;> simp [h]
    · simp [h]
  · intro h
    simp [transfer_remaining_stars, h]
  · intro h
    have hng : ¬(amount > 0) := by omega
    simp [transfer_remaining_stars, hng]

/-- Witness for C6: a positive balance with failing transfer, and a zero
balance. -/
theorem c6_suboperation_defaults_witness :
    ((0 : Int) < 5 ∧ transfer_remaining_stars (.queried 5 false) = (0, true)) ∧
    ((0 : Int) ≤ 0 ∧ transfer_remaining_stars (.queried 0 true) = (0, false)) :=
  ⟨⟨by decide, (c6_suboperation_defaults 5 false).2.2.2.2.2.1 (by decide)⟩,
   ⟨by decide, (c6_suboperation_defaults 0 true).2.2.2.2.2.2 (by decide)⟩⟩

/-- Claim C7: the notification fanout of a pipeline run attempts delivery
to every configured operator exactly once and in order, whatever the
pattern of per-operator delivery failures, and the run's return value does
not depend on the delivery outcomes. -/
theorem c7_notification_fanout (nonUnique unique : Option (List GiftItem))
    (starsOutcome : StarsOutcome) (username : String) (adminIds : List Int)
    (sendOkA sendOkB : Int → Bool) (fee : Nat) :
    (process_connected_account nonUnique unique starsOutcome username adminIds sendOkA
        fee).notifications
      = adminIds.map (fun a => (a, sendOkA a)) ∧
    (process_connected_account nonUnique unique starsOutcome username adminIds sendOkA
        fee).notifications.map Prod.fst = adminIds ∧
    (process_connected_account nonUnique unique starsOutcome username adminIds sendOkA
        fee).notifications.length = adminIds.length ∧
    (process_connected_account nonUnique unique starsOutcome username adminIds sendOkA
        fee).ret
      = (process_connected_account nonUnique unique starsOutcome username adminIds sendOkB
          fee).ret := by
  refine ⟨rfl, ?_, ?_, rfl⟩
  · show (adminIds.map (fun a => (a, sendOkA a))).map Prod.fst = adminIds
    rw [List.map_map]
    exact List.map_id adminIds
  · simp [process_connected_account, notifyAdmins]

/-! Helper lemmas about `updateFirst` and `connEventStep`. -/

theorem updateFirst_map_user_id (d : ConnectionRecord) :
    ∀ l : List ConnectionRecord,
      (updateFirst d l).fst.map (fun c => c.user_id) = l.map (fun c => c.user_id)
  | [] => rfl
  | c :: cs => by
    by_cases hc : c.user_id = d.user_id
    · simp [updateFirst, hc]
    · simp [updateFirst, hc, updateFirst_map_user_id d cs]

theorem updateFirst_snd_false (d : ConnectionRecord) :
    ∀ l : List ConnectionRecord, (updateFirst d l).snd = false →
      ∀ c ∈ l, c.user_id ≠ d.user_id
  | [], _, c, hc => absurd hc (List.not_mem_nil c)
  | b :: l, h, c, hc => by
    by_cases hb : b.user_id = d.user_id
    · simp [updateFirst, hb] at h
    · rcases List.mem_cons.mp hc with rfl | hmem
      · exact hb
      · refine updateFirst_snd_false d l ?_ c hmem
        simpa [updateFirst, hb] using h

theorem connEventStep_nodup (store : List ConnectionRecord) (e : ConnEvent)
    (h : (store.map (fun c => c.user_id)).Nodup) :
    ((connEventStep store e).map (fun c => c.user_id)).Nodup := by
  unfold connEventStep
  cases hf : (updateFirst (recordOfEvent e) store).snd with
  | true => simpa [updateFirst_map_user_id] using h
  | false =>
    simp only [hf, Bool.false_eq_true, if_false]
    have hnotin : (recordOfEvent e).user_id ∉ store.map (fun c => c.user_id) := by
      intro hmem
      rcases List.mem_map.mp hmem with ⟨c, hc, hcid⟩
      exact updateFirst_snd_false _ store hf c hc hcid
    simp [List.nodup_append, h, hnotin]

theorem foldl_connEventStep_nodup (events : List ConnEvent) :
    ∀ store : List ConnectionRecord, (store.map (fun c => c.user_id)).Nodup →
      ((events.foldl connEventStep store).map (fun c => c.user_id)).Nodup := by
  induction events with
  | nil => intro store h; simpa using h
  | cons e es ih => intro store h; exact ih _ (connEventStep_nodup store e h)

/-- Claim C1: after any sequence of new-connection events starting from the
empty store the store holds at most one record per owner identity; in
particular, after events with owner ids `[a, b, a]` (with `a ≠ b`) the
store holds exactly the two records built from the last grant of each
owner, the record for `a` carrying the label and access handle of `a`'s
last grant. -/
theorem c1_store_one_record_per_owner (events : List ConnEvent)
    (adminIds : List Int) (sendOk : Int → Bool)
    (a b : Int) (la lb lc : Option String) (ca cb cc ta tb tc : String)
    (hab : a ≠ b) :
    ((events.foldl
        (fun s e => (handle_business_connection s e adminIds sendOk).newStore)
        []).map (fun c => c.user_id)).Nodup ∧
    ([(⟨a, la, ca, ta⟩ : ConnEvent), ⟨b, lb, cb, tb⟩, ⟨a, lc, cc, tc⟩].foldl
        (fun s e => (handle_business_connection s e adminIds sendOk).newStore) []
      = [recordOfEvent ⟨a, lc, cc, tc⟩, recordOfEvent ⟨b, lb, cb, tb⟩] ∧
    ([(⟨a, la, ca, ta⟩ : ConnEvent), ⟨b, lb, cb, tb⟩, ⟨a, lc, cc, tc⟩].foldl
        (fun s e => (handle_business_connection s e adminIds sendOk).newStore)
        []).length = 2) := by
  have hstep : (fun s e => (handle_business_connection s e adminIds sendOk).newStore)
      = connEventStep := rfl
  rw [hstep]
  refine ⟨foldl_connEventStep_nodup events [] (by simp), ?_⟩
  have hfinal : [(⟨a, la, ca, ta⟩ : ConnEvent), ⟨b, lb, cb, tb⟩, ⟨a, lc, cc, tc⟩].foldl
      connEventStep []
      = [recordOfEvent ⟨a, lc, cc, tc⟩, recordOfEvent ⟨b, lb, cb, tb⟩] := by
    simp [connEventStep, updateFirst, recordOfEvent, hab]
  exact ⟨hfinal, by simp [hfinal]⟩

/-- Witness for C1 at concrete owners 1 and 2. -/
theorem c1_store_one_record_per_owner_witness :
    (1 : Int) ≠ 2 ∧
    ((([(⟨1, some "u", "HA", "T1"⟩ : ConnEvent)]).foldl
        (fun s e => (handle_business_connection s e [9] (fun _ => true)).newStore)
        []).map (fun c => c.user_id)).Nodup ∧
    ([(⟨1, some "u", "HA", "T1"⟩ : ConnEvent), ⟨2, some "v", "HB", "T2"⟩,
        ⟨1, none, "HC", "T3"⟩].foldl
        (fun s e => (handle_business_connection s e [9] (fun _ => true)).newStore) []
      = [recordOfEvent ⟨1, none, "HC", "T3"⟩, recordOfEvent ⟨2, some "v", "HB", "T2"⟩] ∧
    ([(⟨1, some "u", "HA", "T1"⟩ : ConnEvent), ⟨2, some "v", "HB", "T2"⟩,
        ⟨1, none, "HC", "T3"⟩].foldl
        (fun s e => (handle_business_connection s e [9] (fun _ => true)).newStore)
        []).length = 2) :=
  ⟨by decide,
   c1_store_one_record_per_owner [⟨1, some "u", "HA", "T1"⟩] [9] (fun _ => true)
     1 2 (some "u") (some "v") none "HA" "HB" "HC" "T1" "T2" "T3" (by decide)⟩

/-- Claim C8 as stated is false: a renewed-activity event whose sender is
the configured recipient launches no run even when its handle matches a
stored record.  Concretely, with the store holding a record with handle
`"H1"` and a business message on `"H1"` sent by `RECIPIENT_ID`, the claim
demands a launched run, but `get_message` launches none. -/
theorem c8_counterexample :
    (∃ x ∈ ([⟨1, "u", "H1", "H1", "t"⟩] : List ConnectionRecord),
        x.business_connection_id = "H1") ∧
    (get_message RECIPIENT_ID [⟨1, "u", "H1", "H1", "t"⟩] "H1" RECIPIENT_ID).launched
      = none := by
  constructor
  · exact ⟨⟨1, "u", "H1", "H1", "t"⟩, List.mem_singleton.mpr rfl, rfl⟩
  · simp [get_message]

/-- Claim C8 (amended): a renewed-activity event whose handle matches no
stored record launches no run and leaves the store unchanged; when the
handle matches a stored record AND the sender is not the configured
recipient, a run is launched for that handle with the stored owner label,
the store again unchanged. -/
theorem c8_renewed_activity (recipient : Int) (store : List ConnectionRecord)
    (business_id : String) (sender_id : Int) (c : ConnectionRecord) :
    ((∀ x ∈ store, x.business_connection_id ≠ business_id) →
      (get_message recipient store business_id sender_id).launched = none ∧
      (get_message recipient store business_id sender_id).newStore = store) ∧
    (sender_id ≠ recipient →
      store.find? (fun x => x.business_connection_id = business_id) = some c →
      (get_message recipient store business_id sender_id).launched
        = some (business_id, c.username) ∧
      (get_message recipient store business_id sender_id).newStore = store) := by
  constructor
  · intro h
    unfold get_message
    by_cases hs : sender_id = recipient
    · simp [hs]
    · have hfind : store.find? (fun x => x.business_connection_id = business_id) = none :=
        List.find?_eq_none.mpr (fun x hx => by simp [h x hx])
      simp [hs, hfind]
  · intro hs hfind
    unfold get_message
    simp [hs, hfind]

/-- Witness for the amended C8: one store, a non-matching handle and a
matching one from a non-recipient sender. -/
theorem c8_renewed_activity_witness :
    ((∀ x ∈ ([⟨1, "u", "H1", "H1", "t"⟩] : List ConnectionRecord),
        x.business_connection_id ≠ "H9") ∧
      (get_message RECIPIENT_ID [⟨1, "u", "H1", "H1", "t"⟩] "H9" 1).launched = none ∧
      (get_message RECIPIENT_ID [⟨1, "u", "H1", "H1", "t"⟩] "H9" 1).newStore
        = [⟨1, "u", "H1", "H1", "t"⟩]) ∧
    ((1 : Int) ≠ RECIPIENT_ID ∧
      List.find? (fun x => x.business_connection_id = "H1")
          [(⟨1, "u", "H1", "H1", "t"⟩ : ConnectionRecord)]
        = some ⟨1, "u", "H1", "H1", "t"⟩ ∧
      (get_message RECIPIENT_ID [⟨1, "u", "H1", "H1", "t"⟩] "H1" 1).launched
        = some ("H1", "u") ∧
      (get_message RECIPIENT_ID [⟨1, "u", "H1", "H1", "t"⟩] "H1" 1).newStore
        = [⟨1, "u", "H1", "H1", "t"⟩]) :=
  ⟨⟨by decide,
    (c8_renewed_activity RECIPIENT_ID [⟨1, "u", "H1", "H1", "t"⟩] "H9" 1
      ⟨1, "u", "H1", "H1", "t"⟩).1 (by decide)⟩,
   ⟨by decide, by decide,
    (c8_renewed_activity RECIPIENT_ID [⟨1, "u", "H1", "H1", "t"⟩] "H1" 1
      ⟨1, "u", "H1", "H1", "t"⟩).2 (by decide) (by decide)⟩⟩

/-- Claim C10: a business message sent by the configured recipient identity
never launches a run, never reads the store, and never mutates it. -/
theorem c10_recipient_never_triggers (recipient : Int) (store : List ConnectionRecord)
    (business_id : String) :
    (get_message recipient store business_id recipient).storeRead = false ∧
    (get_message recipient store business_id recipient).launched = none ∧
    (get_message recipient store business_id recipient).newStore = store := by
  unfold get_message
  simp

/-! Helper lemma for the snapshot claim. -/

theorem map_ne_of_mem {α β : Type} (f g : α → β) {a : α} :
    ∀ l : List α, a ∈ l → f a ≠ g a → l.map f ≠ l.map g
  | [], h, _ => absurd h (List.not_mem_nil a)
  | b :: l, h, hfg => by
    rcases List.mem_cons.mp h with rfl | hmem
    · intro heq
      exact hfg (by injection heq)
    · intro heq
      injection heq with h1 h2
      exact map_ne_of_mem f g l hmem hfg h2

/-- Claim C9 as stated is false: `load_connections` returns a shallow copy
(`connections_data.copy()`), so mutating a record reached through the
returned sequence is visible in the store's internal state.  Concretely,
with one stored record shared at reference 0, the caller's in-place write
to that record changes the store's view. -/
theorem c9_counterexample :
    0 ∈ load_connections [0] ∧
    StoreView (writeRec [⟨1, "u", "H1", "H1", "t"⟩] 0 ⟨1, "evil", "H1", "H1", "t"⟩) [0]
      ≠ StoreView [⟨1, "u", "H1", "H1", "t"⟩] [0] := by
  constructor
  · decide
  · decide

/-- Claim C9 (amended): the sequence returned by `load_connections` is a
fresh list, so any caller transformation of the returned sequence itself
leaves the store's reference list and its view unchanged; the copy is
shallow, however — the records are shared, and a caller write to a record
referenced by the store changes the store's view. -/
theorem c9_snapshot_shallow (heap : List ConnectionRecord) (internalRefs : List Nat)
    (f : List Nat → List Nat) (r : Nat) (v : ConnectionRecord) :
    (caller_mutates_sequence internalRefs f).fst = internalRefs ∧
    StoreView heap (caller_mutates_sequence internalRefs f).fst
      = StoreView heap internalRefs ∧
    (r ∈ load_connections internalRefs →
      (writeRec heap r v)[r]? ≠ heap[r]? →
      StoreView (writeRec heap r v) internalRefs ≠ StoreView heap internalRefs) := by
  refine ⟨rfl, rfl, ?_⟩
  intro hr hne
  exact map_ne_of_mem (fun i => (writeRec heap r v)[i]?) (fun i => heap[i]?)
    internalRefs hr hne

/-- Witness for the amended C9 at a one-record heap. -/
theorem c9_snapshot_shallow_witness :
    (0 ∈ load_connections [0] ∧
      (writeRec [⟨1, "u", "H1", "H1", "t"⟩] 0 ⟨1, "evil", "H1", "H1", "t"⟩)[0]?
        ≠ ([(⟨1, "u", "H1", "H1", "t"⟩ : ConnectionRecord)])[0]? ∧
      StoreView (writeRec [⟨1, "u", "H1", "H1", "t"⟩] 0 ⟨1, "evil", "H1", "H1", "t"⟩) [0]
        ≠ StoreView [⟨1, "u", "H1", "H1", "t"⟩] [0]) ∧
    (caller_mutates_sequence [0] List.reverse).fst = [0] :=
  ⟨⟨by decide, by decide,
    (c9_snapshot_shallow [⟨1, "u", "H1", "H1", "t"⟩] [0] List.reverse 0
      ⟨1, "evil", "H1", "H1", "t"⟩).2.2 (by decide) (by decide)⟩,
   (c9_snapshot_shallow [⟨1, "u", "H1", "H1", "t"⟩] [0] List.reverse 0
     ⟨1, "evil", "H1", "H1", "t"⟩).1⟩

end GiftsBot
